import Mathlib

/-!
Shallow embedding of the HR system's credential & session lifecycle core:
the auth service (`registerAdmin`, `login`, `createUser`, `setPassword`,
`refreshAccessToken`, `logout`, `changePassword`) and the `User` model's
instance methods (`comparePassword`, `incrementLoginAttempts`,
`resetLoginAttempts`) together with its virtual `isLocked`.

Modelling conventions:
* Time is a `Nat` of milliseconds, passed explicitly as `now` where the
  source calls `Date.now()` / `new Date()`.
* Cryptographic values are symbolic: a JWT is a constructor carrying its
  payload and expiry, SHA-256 is the free constructor `Token.sha256`
  (ideal, collision-free hashing), and a bcrypt digest records its salt
  and plaintext (`bcrypt.compare` succeeds exactly on a genuine digest of
  the candidate).  Fresh randomness (bcrypt salts, invite-token bytes) is
  threaded as explicit `salt` / `nonce` parameters.
* The Mongo collection is a `DB := List User`; `findOne` is `List.find?`
  and `updateOne` maps a record-update over the matching id.
* Each service method returns `Except Err result × DB`: the database
  component carries writes that the source performs *before* throwing
  (failed-login accounting, reuse-detection revocation).
-/

namespace HRAuth

/-- Symbolic token values: signed access/refresh JWTs (payload and expiry
are explicit; `iat` is the issuing instant), raw random invite tokens, and
SHA-256 digests in the ideal collision-free model. -/
inductive Token : Type where
  | accessJwt (userId : Nat) (role : String) (email : String) (exp : Nat)
  | refreshJwt (userId : Nat) (exp : Nat) (iat : Nat)
  | rand (nonce : Nat)
  | sha256 (t : Token)
deriving DecidableEq

/-- Symbolic bcrypt digests: a genuine digest records the salt and the
plaintext it hashes; any other string is a malformed digest. -/
inductive Digest : Type where
  | bcrypt (salt : Nat) (plain : String)
  | malformed (s : String)
deriving DecidableEq

/-- One stored refresh-token handle (`refreshTokens` array element of the
user schema): hashed token plus `createdAt`/`expiresAt` stamps. -/
structure SessionEntry where
  tokenHash : Token
  createdAt : Nat
  expiresAt : Nat
deriving DecidableEq

/-- The persisted `User` document (fields of the Mongoose schema that the
auth core reads or writes). -/
structure User where
  id : Nat
  firstName : String
  lastName : String
  email : String
  password : Option Digest := none
  role : String := "employee"
  isActive : Bool := true
  inviteToken : Option Token := none
  inviteTokenExpires : Option Nat := none
  hasSetPassword : Bool := false
  refreshTokens : List SessionEntry := []
  passwordChangedAt : Option Nat := none
  loginAttempts : Nat := 0
  lockUntil : Option Nat := none
  createdBy : Option Nat := none
  lastLoginAt : Option Nat := none
deriving DecidableEq

/-- Configuration read from the environment (`config.jwt`, `config.admin`,
`config.invite`); expiries are in milliseconds. -/
structure Config where
  accessExpiresMs : Nat := 900000
  refreshExpiresMs : Nat := 604800000
  bootstrapSecret : String := ""
  inviteTokenExpiresHours : Nat := 48
deriving DecidableEq

/-- An HTTP-classified failure: the source throws
`Object.assign(new Error(message), { statusCode })`. -/
structure Err where
  statusCode : Nat
  message : String
deriving DecidableEq

/-- Public user projection returned by the service methods. -/
structure UserView where
  id : Nat
  firstName : String
  lastName : String
  email : String
  role : String
deriving DecidableEq

abbrev DB := List User

-- ─── User model: virtuals and instance methods ───

/-- Virtual `isLocked`: `!!(this.lockUntil && this.lockUntil > Date.now())`. -/
def User.isLocked (u : User) (now : Nat) : Bool :=
  match u.lockUntil with
  | some l => now < l
  | none => false

/-- Guard of `incrementLoginAttempts`'s first branch:
`this.lockUntil && this.lockUntil < Date.now()`. -/
def lockExpired (u : User) (now : Nat) : Bool :=
  match u.lockUntil with
  | some l => l < now
  | none => false

def MAX_LOGIN_ATTEMPTS : Nat := 5

def LOCK_DURATION_MS : Nat := 30 * 60 * 1000

/-- Instance method `comparePassword`: `false` when no digest is stored,
otherwise `bcrypt.compare(candidate, digest)` — true exactly on a genuine
digest of the candidate, false on mismatch or a malformed digest. -/
def User.comparePassword (u : User) (candidate : String) : Bool :=
  match u.password with
  | none => false
  | some (Digest.bcrypt _ plain) => plain == candidate
  | some (Digest.malformed _) => false

/-- Instance method `incrementLoginAttempts` (the `updateOne` it issues,
applied to the document). -/
def incrementLoginAttempts (now : Nat) (u : User) : User :=
  if lockExpired u now then
    { u with loginAttempts := 1, lockUntil := none }
  else if decide (MAX_LOGIN_ATTEMPTS ≤ u.loginAttempts + 1) && !(u.isLocked now) then
    { u with loginAttempts := u.loginAttempts + 1,
             lockUntil := some (now + LOCK_DURATION_MS) }
  else
    { u with loginAttempts := u.loginAttempts + 1 }

/-- Instance method `resetLoginAttempts`. -/
def resetLoginAttempts (now : Nat) (u : User) : User :=
  { u with loginAttempts := 0, lastLoginAt := some now, lockUntil := none }

/-- The pre-save hook's effect of assigning `user.password = plaintext` on
an existing document: bcrypt-hash with a fresh salt and stamp
`passwordChangedAt` (the document is not new). -/
def setHashedPassword (now salt : Nat) (plaintext : String) (u : User) : User :=
  { u with password := some (Digest.bcrypt salt plaintext),
           passwordChangedAt := some now }

-- ─── token utils ───

/-- `signAccessToken`: JWT over `{userId, role, email}` with the access
expiry. -/
def signAccessToken (cfg : Config) (now : Nat) (userId : Nat) (role email : String) : Token :=
  Token.accessJwt userId role email (now + cfg.accessExpiresMs)

/-- `signRefreshToken`: JWT over `{userId}` with the refresh expiry. -/
def signRefreshToken (cfg : Config) (now : Nat) (userId : Nat) : Token :=
  Token.refreshJwt userId (now + cfg.refreshExpiresMs) now

/-- `verifyRefreshToken`: succeeds with the decoded `userId` exactly on an
unexpired refresh JWT; anything else throws in the source (`none` here). -/
def verifyRefreshToken (t : Token) (now : Nat) : Option Nat :=
  match t with
  | Token.refreshJwt userId exp _ => if now < exp then some userId else none
  | _ => none

-- ─── service helpers ───

/-- `generateSecureToken`: fresh random raw token and its SHA-256 hash. -/
def generateSecureToken (nonce : Nat) : Token × Token :=
  (Token.rand nonce, Token.sha256 (Token.rand nonce))

/-- `hashRefreshToken`. -/
def hashRefreshToken (t : Token) : Token :=
  Token.sha256 t

/-- `pruneExpiredTokens`: keep entries with `expiresAt > new Date()`. -/
def pruneExpiredTokens (now : Nat) (tokens : List SessionEntry) : List SessionEntry :=
  tokens.filter (fun t => decide (now < t.expiresAt))

/-- JS `Array.prototype.slice(-n)`: the last `n` elements. -/
def sliceLast (n : Nat) (xs : List α) : List α :=
  xs.drop (xs.length - n)

/-- JS `Array.prototype.findIndex`: index of the first match, `-1` if none. -/
def findIndex (p : α → Bool) : List α → Int
  | [] => -1
  | x :: xs =>
    if p x then 0
    else
      let r := findIndex p xs
      if r = -1 then -1 else r + 1

/-- JS `Array.prototype.splice(start, 1)`: a negative `start` counts from
the end (clamped at 0); at most one element is removed. -/
def spliceRemoveOne (xs : List α) (start : Int) : List α :=
  let s : Nat := if start < 0 then xs.length - (-start).toNat else min start.toNat xs.length
  xs.take s ++ xs.drop (s + 1)

/-- `User.updateOne({_id: i}, ...)` over the collection. -/
def updateUser (db : DB) (i : Nat) (f : User → User) : DB :=
  db.map (fun v => if v.id == i then f v else v)

def userView (u : User) : UserView :=
  ⟨u.id, u.firstName, u.lastName, u.email, u.role⟩

-- ─── service methods ───

/-- `registerAdmin`: bootstrap-secret check, then single-admin and email
conflicts, then creation with role `admin` and `hasSetPassword=true`. -/
def registerAdmin (cfg : Config) (salt newId : Nat) (db : DB)
    (firstName lastName email password bootstrapSecret : String) :
    Except Err UserView × DB :=
  if bootstrapSecret ≠ cfg.bootstrapSecret then
    (Except.error ⟨403, "Invalid admin bootstrap secret."⟩, db)
  else if (db.find? (fun u => u.role == "admin")).isSome then
    (Except.error ⟨409, "An admin account already exists. Use the standard user management flow to add more admins."⟩, db)
  else if (db.find? (fun u => u.email == email)).isSome then
    (Except.error ⟨409, "An account with this email already exists."⟩, db)
  else
    let admin : User :=
      { id := newId, firstName := firstName, lastName := lastName, email := email,
        password := some (Digest.bcrypt salt password),
        role := "admin", hasSetPassword := true }
    (Except.ok (userView admin), db ++ [admin])

structure LoginResult where
  accessToken : Token
  refreshToken : Token
  user : UserView
deriving DecidableEq

/-- Message of the 423 lockout failure, with
`Math.ceil((lockUntil - Date.now()) / 60000)` minutes remaining. -/
def lockedLoginMessage (u : User) (now : Nat) : String :=
  let minutesLeft := ((u.lockUntil.getD 0) - now + 59999) / 60000
  s!"Account temporarily locked due to too many failed login attempts. Try again in {minutesLeft} minute(s)."

/-- `login`: enumeration-safe lookup failure, deactivation / unset-password
guards, lockout admission check, failed-attempt accounting, and on success
token issuance plus session registration (prune, push, keep last 5). -/
def login (cfg : Config) (now : Nat) (db : DB) (email password : String) :
    Except Err LoginResult × DB :=
  match db.find? (fun u => u.email == email) with
  | none => (Except.error ⟨401, "Invalid email or password."⟩, db)
  | some user =>
    if !user.isActive then
      (Except.error ⟨403, "Your account has been deactivated. Please contact your administrator."⟩, db)
    else if !user.hasSetPassword then
      (Except.error ⟨403, "Please set your password using the invite link sent to your email before logging in."⟩, db)
    else if user.isLocked now then
      (Except.error ⟨423, lockedLoginMessage user now⟩, db)
    else if !(user.comparePassword password) then
      let db2 := updateUser db user.id (incrementLoginAttempts now)
      let attemptsLeft := MAX_LOGIN_ATTEMPTS - (user.loginAttempts + 1)
      let message :=
        if 0 < attemptsLeft then
          s!"Invalid email or password. {attemptsLeft} attempt(s) remaining before account lock."
        else
          "Invalid email or password. Your account has been temporarily locked."
      (Except.error ⟨401, message⟩, db2)
    else
      let accessToken := signAccessToken cfg now user.id user.role user.email
      let refreshToken := signRefreshToken cfg now user.id
      let tokenHash := hashRefreshToken refreshToken
      let expiresAt := now + 7 * 24 * 60 * 60 * 1000
      let cleanTokens := pruneExpiredTokens now user.refreshTokens
      let trimmedTokens := sliceLast 5 (cleanTokens ++ [⟨tokenHash, now, expiresAt⟩])
      let db2 := updateUser db user.id (resetLoginAttempts now)
      let db3 := updateUser db2 user.id (fun v => { v with refreshTokens := trimmedTokens })
      (Except.ok ⟨accessToken, refreshToken, userView user⟩, db3)

structure CreateUserResult where
  user : UserView
  inviteToken : Token
  expiresAt : Nat
deriving DecidableEq

/-- `createUser`: email-conflict check, then creation of a pending user
carrying the hashed invite token and its expiry; the raw token is
returned to the caller. -/
def createUser (cfg : Config) (now nonce newId : Nat) (adminId : Nat) (db : DB)
    (firstName lastName email role : String) :
    Except Err CreateUserResult × DB :=
  if (db.find? (fun u => u.email == email)).isSome then
    (Except.error ⟨409, "A user with this email already exists."⟩, db)
  else
    let raw := (generateSecureToken nonce).1
    let hash := (generateSecureToken nonce).2
    let inviteTokenExpires := now + cfg.inviteTokenExpiresHours * 60 * 60 * 1000
    let newUser : User :=
      { id := newId, firstName := firstName, lastName := lastName, email := email,
        role := role,
        inviteToken := some hash,
        inviteTokenExpires := some inviteTokenExpires,
        hasSetPassword := false,
        createdBy := some adminId }
    (Except.ok ⟨userView newUser, raw, inviteTokenExpires⟩, db ++ [newUser])

/-- `setPassword`: look up by invite-token hash with unexpired expiry;
on success set the (bcrypt-hashed) password, mark `hasSetPassword`, and
clear both invite fields. -/
def setPassword (now salt : Nat) (db : DB) (inviteToken : Token) (password : String) :
    Except Err UserView × DB :=
  let tokenHash := Token.sha256 inviteToken
  match db.find? (fun u =>
      u.inviteToken == some tokenHash &&
      (match u.inviteTokenExpires with
       | some e => decide (now < e)
       | none => false)) with
  | none =>
    (Except.error ⟨400, "Invalid or expired invite token. Please request a new invite from your administrator."⟩, db)
  | some user =>
    (Except.ok (userView user),
     updateUser db user.id (fun v =>
       { setHashedPassword now salt password v with
         hasSetPassword := true,
         inviteToken := none,
         inviteTokenExpires := none }))

structure RefreshResult where
  accessToken : Token
  newRefreshToken : Token
deriving DecidableEq

/-- `refreshAccessToken`: codec verification, user lookup, activity guard,
then reuse detection (hash not found ⇒ revoke all sessions and fail) or
rotation (remove the presented entry, register a fresh token, keep last 5). -/
def refreshAccessToken (cfg : Config) (now : Nat) (db : DB) (incoming : Option Token) :
    Except Err RefreshResult × DB :=
  match incoming with
  | none => (Except.error ⟨401, "Refresh token is required."⟩, db)
  | some tok =>
    match verifyRefreshToken tok now with
    | none => (Except.error ⟨401, "Invalid or expired refresh token."⟩, db)
    | some userId =>
      match db.find? (fun u => u.id == userId) with
      | none => (Except.error ⟨401, "User no longer exists."⟩, db)
      | some user =>
        if !user.isActive then
          (Except.error ⟨403, "Account is deactivated."⟩, db)
        else
          let incomingHash := hashRefreshToken tok
          if findIndex (fun t => t.tokenHash == incomingHash) user.refreshTokens = -1 then
            (Except.error ⟨401, "Session invalid. Please log in again."⟩,
             updateUser db user.id (fun v => { v with refreshTokens := [] }))
          else
            let newRefreshToken := signRefreshToken cfg now user.id
            let newHash := hashRefreshToken newRefreshToken
            let expiresAt := now + 7 * 24 * 60 * 60 * 1000
            let pruned := pruneExpiredTokens now user.refreshTokens
            let afterSplice :=
              spliceRemoveOne pruned (findIndex (fun t => t.tokenHash == incomingHash) pruned)
            let updatedTokens := afterSplice ++ [⟨newHash, now, expiresAt⟩]
            let db2 := updateUser db user.id (fun v =>
              { v with refreshTokens := sliceLast 5 updatedTokens })
            let accessToken := signAccessToken cfg now user.id user.role user.email
            (Except.ok ⟨accessToken, newRefreshToken⟩, db2)

/-- `logout`: no-op without a token, else `$pull` the matching hashed
entry from the user's session list. -/
def logout (db : DB) (userId : Nat) (refreshToken : Option Token) :
    Except Err Unit × DB :=
  match refreshToken with
  | none => (Except.ok (), db)
  | some tok =>
    let tokenHash := hashRefreshToken tok
    (Except.ok (),
     updateUser db userId (fun v =>
       { v with refreshTokens := v.refreshTokens.filter (fun t => !(t.tokenHash == tokenHash)) }))

/-- `changePassword`: `NotFound` when the user vanished, `Unauthorized`
when the current password does not verify, otherwise set the new hash and
clear the whole session list. -/
def changePassword (now salt : Nat) (db : DB) (userId : Nat)
    (currentPassword newPassword : String) :
    Except Err Unit × DB :=
  match db.find? (fun u => u.id == userId) with
  | none => (Except.error ⟨404, "User not found."⟩, db)
  | some user =>
    if !(user.comparePassword currentPassword) then
      (Except.error ⟨401, "Current password is incorrect."⟩, db)
    else
      (Except.ok (),
       updateUser db user.id (fun v =>
         { setHashedPassword now salt newPassword v with refreshTokens := [] }))

-- ─── auxiliary lemmas: hashing, lookups, updates ───

/-- Ideal hashing: a SHA-256 digest is never equal to the value it hashes. -/
theorem sha256_ne (t : Token) : Token.sha256 t ≠ t := by
  induction t with
  | sha256 s ih =>
    intro h
    injection h with h2
    exact ih h2
  | accessJwt a b c d => exact fun h => Token.noConfusion h
  | refreshJwt a b c => exact fun h => Token.noConfusion h
  | rand n => exact fun h => Token.noConfusion h

/-- The collection invariant that document ids are pairwise distinct. -/
def uniqueIds (db : DB) : Prop :=
  db.Pairwise (fun a b => a.id ≠ b.id)

theorem find?_map_pres (db : DB) (p : User → Bool) (g : User → User)
    (hp : ∀ v, p (g v) = p v) :
    (db.map g).find? p = (db.find? p).map g := by
  induction db with
  | nil => rfl
  | cons v rest ih =>
    rw [List.map_cons]
    cases hpv : p v with
    | true =>
      rw [List.find?_cons_of_pos _ (by rw [hp]; exact hpv),
          List.find?_cons_of_pos _ hpv, Option.map_some']
    | false =>
      rw [List.find?_cons_of_neg _ (by rw [hp, hpv]; simp),
          List.find?_cons_of_neg _ (by rw [hpv]; simp), ih]

theorem find?_id_of_mem (db : DB) (u : User) (hmem : u ∈ db) (hids : uniqueIds db) :
    db.find? (fun v => v.id == u.id) = some u := by
  induction db with
  | nil => cases hmem
  | cons v rest ih =>
    rcases List.mem_cons.mp hmem with h | h
    · subst h
      exact List.find?_cons_of_pos _ (by simp)
    · have hv : v.id ≠ u.id := (List.pairwise_cons.mp hids).1 u h
      rw [List.find?_cons_of_neg _ (by simp [hv])]
      exact ih h (List.pairwise_cons.mp hids).2

theorem find?_id_updateUser (db : DB) (i : Nat) (u : User) (f : User → User)
    (hfind : db.find? (fun v => v.id == i) = some u)
    (hf : ∀ v, (f v).id = v.id) :
    (updateUser db i f).find? (fun v => v.id == i) = some (f u) := by
  have hp : ∀ v, ((fun w => w.id == i) (if v.id == i then f v else v)) =
      ((fun w => w.id == i) v) := by
    intro v
    by_cases h : (v.id == i) = true
    · simp [h, hf]
    · simp [h]
  unfold updateUser
  rw [find?_map_pres _ _ _ hp, hfind, Option.map_some']
  have hu := List.find?_some hfind
  simp only at hu
  simp [hu]

theorem find?_email_updateUser (db : DB) (e : String) (u : User) (f : User → User)
    (hfind : db.find? (fun v => v.email == e) = some u)
    (hf : ∀ v, (f v).email = v.email) :
    (updateUser db u.id f).find? (fun v => v.email == e) = some (f u) := by
  have hp : ∀ v, ((fun w => w.email == e) (if v.id == u.id then f v else v)) =
      ((fun w => w.email == e) v) := by
    intro v
    by_cases h : (v.id == u.id) = true
    · simp [h, hf]
    · simp [h]
  unfold updateUser
  rw [find?_map_pres _ _ _ hp, hfind, Option.map_some']
  simp

theorem updateUser_comp (db : DB) (i : Nat) (f g : User → User)
    (hf : ∀ v, (f v).id = v.id) :
    updateUser (updateUser db i f) i g = updateUser db i (fun v => g (f v)) := by
  unfold updateUser
  rw [List.map_map]
  have hfun : ((fun v => if v.id == i then g v else v) ∘
      (fun v => if v.id == i then f v else v)) =
      (fun v => if v.id == i then g (f v) else v) := by
    funext v
    by_cases h : v.id = i
    · simp [h, hf]
    · simp [h]
  rw [hfun]

theorem updateUser_id_miss (db : DB) (i : Nat) (f : User → User)
    (h : ∀ v ∈ db, v.id ≠ i) : updateUser db i f = db := by
  unfold updateUser
  induction db with
  | nil => rfl
  | cons v rest ih =>
    rw [List.map_cons]
    have hv : (v.id == i) = false := by
      simp [h v (List.mem_cons_self v rest)]
    rw [hv, if_neg (by simp), ih (fun w hw => h w (List.mem_cons_of_mem _ hw))]

theorem uniqueIds_updateUser (db : DB) (i : Nat) (f : User → User)
    (hf : ∀ v, (f v).id = v.id) (hids : uniqueIds db) :
    uniqueIds (updateUser db i f) := by
  unfold updateUser uniqueIds
  refine List.Pairwise.map _ ?_ hids
  intro a b hab
  by_cases ha : (a.id == i) = true <;> by_cases hb : (b.id == i) = true <;>
    simp [ha, hb, hf, hab]

-- ─── auxiliary lemmas: slicing, searching, splicing ───

theorem length_sliceLast_le (n : Nat) (xs : List α) : (sliceLast n xs).length ≤ n := by
  unfold sliceLast
  rw [List.length_drop]
  omega

theorem sliceLast_suffix (n : Nat) (xs : List α) : ∃ t, t ++ sliceLast n xs = xs :=
  ⟨xs.take (xs.length - n), List.take_append_drop _ _⟩

theorem sliceLast_append_singleton (n : Nat) (hn : 1 ≤ n) (xs : List α) (e : α) :
    sliceLast n (xs ++ [e]) = xs.drop (xs.length + 1 - n) ++ [e] := by
  unfold sliceLast
  rw [List.length_append, List.length_cons, List.length_nil,
      List.drop_append_of_le_length (by omega)]

theorem findIndex_ge_neg_one (p : α → Bool) (l : List α) :
    -1 ≤ findIndex p l := by
  induction l with
  | nil => simp [findIndex]
  | cons x xs ih =>
    simp only [findIndex]
    by_cases hx : p x = true
    · simp [hx]
    · simp only [hx, Bool.false_eq_true, if_false]
      by_cases hr : findIndex p xs = -1
      · simp [hr]
      · rw [if_neg hr]; omega

theorem findIndex_eq_neg_one (p : α → Bool) (l : List α) :
    findIndex p l = -1 ↔ ∀ x ∈ l, p x = false := by
  induction l with
  | nil => simp [findIndex]
  | cons x xs ih =>
    cases hpx : p x with
    | true =>
      simp only [findIndex, hpx, if_true, List.mem_cons]
      constructor
      · intro h; omega
      · intro h
        have := h x (Or.inl rfl)
        rw [hpx] at this
        cases this
    | false =>
      simp only [findIndex, hpx, Bool.false_eq_true, if_false, List.mem_cons]
      by_cases hr : findIndex p xs = -1
      · rw [if_pos hr]
        constructor
        · intro _ y hy
          rcases hy with hy | hy
          · subst hy; exact hpx
          · exact (ih.mp hr) y hy
        · intro _; rfl
      · rw [if_neg hr]
        have hge := findIndex_ge_neg_one p xs
        constructor
        · intro h; omega
        · intro h
          exact absurd (ih.mpr (fun y hy => h y (Or.inr hy))) hr

theorem findIndex_append_singleton (p : α → Bool) (zs : List α) (e : α)
    (hz : ∀ z ∈ zs, p z = false) (he : p e = true) :
    findIndex p (zs ++ [e]) = (zs.length : Int) := by
  induction zs with
  | nil => simp [findIndex, he]
  | cons z zs ih =>
    have hz0 : p z = false := hz z (List.mem_cons_self z zs)
    have ih2 := ih (fun a ha => hz a (List.mem_cons_of_mem _ ha))
    simp only [List.cons_append, findIndex, hz0, Bool.false_eq_true, if_false,
      List.append_eq]
    rw [ih2]
    have hne : (zs.length : Int) ≠ -1 := by omega
    rw [if_neg hne, List.length_cons]
    omega

theorem spliceRemoveOne_at_length (zs : List α) (e : α) :
    spliceRemoveOne (zs ++ [e]) (zs.length : Int) = zs := by
  have h1 : ¬((zs.length : Int) < 0) := by omega
  have h2 : (zs.length : Int).toNat = zs.length := Int.toNat_ofNat zs.length
  have hmin : min (zs.length : Int).toNat (zs ++ [e]).length = zs.length := by
    rw [h2, List.length_append]
    omega
  unfold spliceRemoveOne
  rw [if_neg h1, hmin]
  show List.take zs.length (zs ++ [e]) ++ List.drop (zs.length + 1) (zs ++ [e]) = zs
  rw [List.take_left]
  have hlen : zs.length + 1 = (zs ++ [e]).length := by
    rw [List.length_append]; rfl
  rw [hlen, List.drop_length, List.append_nil]

-- ─── behavior lemmas for the service methods ───

/-- The session list a successful login writes: prune, append the hashed
fresh refresh token, keep the last 5. -/
def newSessions (cfg : Config) (now : Nat) (u : User) : List SessionEntry :=
  sliceLast 5 (pruneExpiredTokens now u.refreshTokens ++
    [⟨Token.sha256 (signRefreshToken cfg now u.id), now, now + 7 * 24 * 60 * 60 * 1000⟩])

theorem login_success_eq (cfg : Config) (now : Nat) (db : DB) (email pw : String) (u : User)
    (hfind : db.find? (fun v => v.email == email) = some u)
    (ha : u.isActive = true) (hs : u.hasSetPassword = true)
    (hl : u.isLocked now = false) (hc : u.comparePassword pw = true) :
    login cfg now db email pw =
      (Except.ok ⟨signAccessToken cfg now u.id u.role u.email,
                  signRefreshToken cfg now u.id, userView u⟩,
       updateUser db u.id (fun v =>
         { resetLoginAttempts now v with refreshTokens := newSessions cfg now u })) := by
  unfold login
  rw [hfind]
  simp only [ha, hs, hl, hc, Bool.not_true, Bool.false_eq_true, if_false, if_true]
  rw [updateUser_comp db u.id (resetLoginAttempts now) _ (fun v => rfl)]
  rfl

theorem login_locked_eq (cfg : Config) (now : Nat) (db : DB) (email pw : String) (u : User)
    (hfind : db.find? (fun v => v.email == email) = some u)
    (ha : u.isActive = true) (hs : u.hasSetPassword = true)
    (hl : u.isLocked now = true) :
    login cfg now db email pw = (Except.error ⟨423, lockedLoginMessage u now⟩, db) := by
  unfold login
  rw [hfind]
  simp only [ha, hs, hl, Bool.not_true, Bool.false_eq_true, if_false, if_true]

theorem login_wrongpw_eq (cfg : Config) (now : Nat) (db : DB) (email pw : String) (u : User)
    (hfind : db.find? (fun v => v.email == email) = some u)
    (ha : u.isActive = true) (hs : u.hasSetPassword = true)
    (hl : u.isLocked now = false) (hc : u.comparePassword pw = false) :
    ∃ m, login cfg now db email pw =
      (Except.error ⟨401, m⟩, updateUser db u.id (incrementLoginAttempts now)) := by
  unfold login
  rw [hfind]
  simp only [ha, hs, hl, hc, Bool.not_true, Bool.not_false, Bool.false_eq_true, if_false,
    if_true]
  exact ⟨_, rfl⟩

theorem refresh_reuse_eq (cfg : Config) (now : Nat) (db : DB)
    (uid exp iat : Nat) (u : User)
    (hexp : now < exp)
    (hfind : db.find? (fun v => v.id == uid) = some u)
    (ha : u.isActive = true)
    (hmiss : ∀ e ∈ u.refreshTokens, e.tokenHash ≠ Token.sha256 (Token.refreshJwt uid exp iat)) :
    refreshAccessToken cfg now db (some (Token.refreshJwt uid exp iat)) =
      (Except.error ⟨401, "Session invalid. Please log in again."⟩,
       updateUser db u.id (fun v => { v with refreshTokens := [] })) := by
  unfold refreshAccessToken verifyRefreshToken
  simp only [hexp, if_true]
  rw [hfind]
  simp only [ha, Bool.not_true, Bool.false_eq_true, if_false]
  have hidx : findIndex
      (fun t => t.tokenHash == hashRefreshToken (Token.refreshJwt uid exp iat))
      u.refreshTokens = -1 := by
    refine (findIndex_eq_neg_one _ _).mpr (fun x hx => ?_)
    simp [hashRefreshToken, hmiss x hx]
  rw [hidx]
  simp only [if_true]

theorem refresh_rotate_eq (cfg : Config) (now : Nat) (db : DB)
    (uid exp iat : Nat) (u : User) (zs : List SessionEntry) (e : SessionEntry)
    (hexp : now < exp)
    (hfind : db.find? (fun v => v.id == uid) = some u)
    (ha : u.isActive = true)
    (hsplit : u.refreshTokens = zs ++ [e])
    (hzs : ∀ z ∈ zs, z.tokenHash ≠ Token.sha256 (Token.refreshJwt uid exp iat))
    (he : e.tokenHash = Token.sha256 (Token.refreshJwt uid exp iat))
    (halive : now < e.expiresAt) :
    refreshAccessToken cfg now db (some (Token.refreshJwt uid exp iat)) =
      (Except.ok ⟨signAccessToken cfg now u.id u.role u.email,
                  signRefreshToken cfg now u.id⟩,
       updateUser db u.id (fun v =>
         { v with refreshTokens := sliceLast 5 (pruneExpiredTokens now zs ++
             [⟨Token.sha256 (signRefreshToken cfg now u.id), now,
               now + 7 * 24 * 60 * 60 * 1000⟩]) })) := by
  unfold refreshAccessToken verifyRefreshToken
  simp only [hexp, if_true]
  rw [hfind]
  simp only [ha, Bool.not_true, Bool.false_eq_true, if_false]
  have hpe : (fun t : SessionEntry =>
      t.tokenHash == hashRefreshToken (Token.refreshJwt uid exp iat)) e = true := by
    simp [hashRefreshToken, he]
  have hpz : ∀ z ∈ zs, (fun t : SessionEntry =>
      t.tokenHash == hashRefreshToken (Token.refreshJwt uid exp iat)) z = false := by
    intro z hz
    simp [hashRefreshToken, hzs z hz]
  have hidx : findIndex
      (fun t => t.tokenHash == hashRefreshToken (Token.refreshJwt uid exp iat))
      u.refreshTokens = (zs.length : Int) := by
    rw [hsplit]
    exact findIndex_append_singleton _ _ _ hpz hpe
  rw [hidx]
  have hne : ((zs.length : Int) = -1) = False := by
    simp only [eq_iff_iff, iff_false]
    omega
  simp only [hne, if_false]
  have hprune : pruneExpiredTokens now u.refreshTokens =
      pruneExpiredTokens now zs ++ [e] := by
    rw [hsplit]
    unfold pruneExpiredTokens
    rw [List.filter_append]
    simp [halive]
  rw [hprune]
  have hpz2 : ∀ z ∈ pruneExpiredTokens now zs, (fun t : SessionEntry =>
      t.tokenHash == hashRefreshToken (Token.refreshJwt uid exp iat)) z = false := by
    intro z hz
    exact hpz z (List.mem_filter.mp hz).1
  rw [findIndex_append_singleton _ _ _ hpz2 hpe, spliceRemoveOne_at_length]
  rfl

-- ─── additional small helpers ───

theorem find?_append_of_none (l1 l2 : List α) (p : α → Bool)
    (h : ∀ x ∈ l1, p x = false) : (l1 ++ l2).find? p = l2.find? p := by
  induction l1 with
  | nil => rfl
  | cons x xs ih =>
    rw [List.cons_append,
        List.find?_cons_of_neg _ (by simp [h x (List.mem_cons_self x xs)]),
        ih (fun y hy => h y (List.mem_cons_of_mem _ hy))]

theorem incrementLoginAttempts_preserves (now : Nat) (v : User) :
    (incrementLoginAttempts now v).email = v.email ∧
    (incrementLoginAttempts now v).id = v.id ∧
    (incrementLoginAttempts now v).isActive = v.isActive ∧
    (incrementLoginAttempts now v).hasSetPassword = v.hasSetPassword ∧
    (incrementLoginAttempts now v).password = v.password ∧
    (incrementLoginAttempts now v).refreshTokens = v.refreshTokens := by
  unfold incrementLoginAttempts
  split
  · exact ⟨rfl, rfl, rfl, rfl, rfl, rfl⟩
  · split
    · exact ⟨rfl, rfl, rfl, rfl, rfl, rfl⟩
    · exact ⟨rfl, rfl, rfl, rfl, rfl, rfl⟩

theorem isLocked_of_none (v : User) (now : Nat) (h : v.lockUntil = none) :
    v.isLocked now = false := by
  unfold User.isLocked
  rw [h]

theorem comparePassword_congr (v w : User) (c : String) (h : v.password = w.password) :
    v.comparePassword c = w.comparePassword c := by
  unfold User.comparePassword
  rw [h]

theorem inc_unlocked_small (now : Nat) (v : User)
    (hlock : v.lockUntil = none) (hlt : v.loginAttempts + 1 < 5) :
    incrementLoginAttempts now v = { v with loginAttempts := v.loginAttempts + 1 } := by
  unfold incrementLoginAttempts lockExpired
  rw [hlock]
  have h1 : decide (MAX_LOGIN_ATTEMPTS ≤ v.loginAttempts + 1) = false := by
    simp [MAX_LOGIN_ATTEMPTS]
    omega
  simp [h1]

theorem inc_unlocked_fifth (now : Nat) (v : User)
    (hlock : v.lockUntil = none) (heq : v.loginAttempts + 1 = 5) :
    incrementLoginAttempts now v =
      { v with loginAttempts := v.loginAttempts + 1,
               lockUntil := some (now + LOCK_DURATION_MS) } := by
  unfold incrementLoginAttempts lockExpired
  rw [hlock]
  have h1 : decide (MAX_LOGIN_ATTEMPTS ≤ v.loginAttempts + 1) = true := by
    simp [MAX_LOGIN_ATTEMPTS]
    omega
  have h2 : v.isLocked now = false := isLocked_of_none v now hlock
  simp [h1, h2]

-- ─── claim theorems ───

/-- C9: password verification is total over every stored digest shape —
for every candidate plaintext, `comparePassword` returns `false` for an
absent digest and for a malformed digest, returns `true` exactly when the
stored value is a genuine bcrypt digest of the candidate (so `false` on
any mismatch), and being a total boolean-valued Lean function it never
throws. -/
theorem C9_comparePassword_total (u : User) (c s : String) (salt : Nat) :
    ({ u with password := none } : User).comparePassword c = false ∧
    ({ u with password := some (Digest.malformed s) } : User).comparePassword c = false ∧
    ({ u with password := some (Digest.bcrypt salt c) } : User).comparePassword c = true ∧
    (u.comparePassword c = true ↔ ∃ k, u.password = some (Digest.bcrypt k c)) := by
  refine ⟨rfl, rfl, by simp [User.comparePassword], ?_⟩
  cases hp : u.password with
  | none => simp [User.comparePassword, hp]
  | some d =>
    cases d with
    | bcrypt k p =>
      simp only [User.comparePassword, hp, beq_iff_eq, Option.some.injEq,
        Digest.bcrypt.injEq]
      constructor
      · intro h
        exact ⟨k, rfl, h⟩
      · rintro ⟨k2, _, h⟩
        exact h
    | malformed s2 => simp [User.comparePassword, hp]

/-- The admin document `registerAdmin` creates on success. -/
def mkAdmin (salt newId : Nat) (fn ln em pw : String) : User :=
  { id := newId, firstName := fn, lastName := ln, email := em,
    password := some (Digest.bcrypt salt pw),
    role := "admin", hasSetPassword := true }

/-- C7: `registerAdmin` fails `403 Forbidden` whenever the supplied secret
differs from the configured bootstrap secret (checked before anything
else), fails `409 Conflict` when an admin already exists or the email is
taken, and otherwise creates a user with role `admin` and
`hasSetPassword = true`; after one success, a repeat call with the correct
secret fails `409 Conflict` and one with a wrong secret fails
`403 Forbidden`, so it succeeds at most once. -/
theorem C7_registerAdmin_bootstrap :
    (∀ (cfg : Config) (salt newId : Nat) (db : DB) (fn ln em pw sec : String),
      sec ≠ cfg.bootstrapSecret →
      registerAdmin cfg salt newId db fn ln em pw sec =
        (Except.error ⟨403, "Invalid admin bootstrap secret."⟩, db)) ∧
    (∀ (cfg : Config) (salt newId : Nat) (db : DB) (fn ln em pw : String),
      (db.find? (fun u => u.role == "admin")).isSome = true →
      registerAdmin cfg salt newId db fn ln em pw cfg.bootstrapSecret =
        (Except.error ⟨409, "An admin account already exists. Use the standard user management flow to add more admins."⟩, db)) ∧
    (∀ (cfg : Config) (salt newId : Nat) (db : DB) (fn ln em pw : String),
      db.find? (fun u => u.role == "admin") = none →
      (db.find? (fun u => u.email == em)).isSome = true →
      registerAdmin cfg salt newId db fn ln em pw cfg.bootstrapSecret =
        (Except.error ⟨409, "An account with this email already exists."⟩, db)) ∧
    (∀ (cfg : Config) (salt newId : Nat) (db : DB) (fn ln em pw : String),
      db.find? (fun u => u.role == "admin") = none →
      db.find? (fun u => u.email == em) = none →
      ∃ admin : User,
        registerAdmin cfg salt newId db fn ln em pw cfg.bootstrapSecret =
          (Except.ok (userView admin), db ++ [admin]) ∧
        admin.role = "admin" ∧
        admin.hasSetPassword = true ∧
        (∀ (salt2 newId2 : Nat) (fn2 ln2 em2 pw2 : String),
          registerAdmin cfg salt2 newId2 (db ++ [admin]) fn2 ln2 em2 pw2
              cfg.bootstrapSecret =
            (Except.error ⟨409, "An admin account already exists. Use the standard user management flow to add more admins."⟩, db ++ [admin])) ∧
        (∀ (salt2 newId2 : Nat) (fn2 ln2 em2 pw2 sec2 : String),
          sec2 ≠ cfg.bootstrapSecret →
          registerAdmin cfg salt2 newId2 (db ++ [admin]) fn2 ln2 em2 pw2 sec2 =
            (Except.error ⟨403, "Invalid admin bootstrap secret."⟩, db ++ [admin]))) := by
  refine ⟨?_, ?_, ?_, ?_⟩
  · intro cfg salt newId db fn ln em pw sec h
    unfold registerAdmin
    rw [if_pos h]
  · intro cfg salt newId db fn ln em pw h
    unfold registerAdmin
    rw [if_neg (by simp), if_pos h]
  · intro cfg salt newId db fn ln em pw hadmin hemail
    unfold registerAdmin
    rw [if_neg (by simp), if_neg (by simp [hadmin]), if_pos hemail]
  · intro cfg salt newId db fn ln em pw hadmin hemail
    refine ⟨mkAdmin salt newId fn ln em pw, ?_, rfl, rfl, ?_, ?_⟩
    · unfold registerAdmin
      rw [if_neg (by simp), if_neg (by simp [hadmin]), if_neg (by simp [hemail])]
      rfl
    · intro salt2 newId2 fn2 ln2 em2 pw2
      have hall : ∀ x ∈ db, (fun u : User => u.role == "admin") x = false := by
        intro x hx
        have := List.find?_eq_none.mp hadmin x hx
        simpa using this
      have hfound : ((db ++ [mkAdmin salt newId fn ln em pw]).find?
            (fun u => u.role == "admin")).isSome = true := by
        rw [find?_append_of_none _ _ _ hall]
        rfl
      unfold registerAdmin
      rw [if_neg (by simp), if_pos hfound]
    · intro salt2 newId2 fn2 ln2 em2 pw2 sec2 h2
      unfold registerAdmin
      rw [if_pos h2]

/-- C6: `changePassword` fails `404 NotFound` when no user with the id
exists and `401 Unauthorized` when the current password does not verify,
in both cases returning the database unchanged; on success it stores the
new bcrypt hash and clears the whole session list, after which rotating
any refresh token issued for this user before the change fails with the
`SessionInvalid` failure (`401`, "Session invalid. Please log in again."). -/
theorem C6_changePassword_behavior :
    (∀ (now salt : Nat) (db : DB) (uid : Nat) (cur new : String),
      db.find? (fun v => v.id == uid) = none →
      changePassword now salt db uid cur new = (Except.error ⟨404, "User not found."⟩, db)) ∧
    (∀ (now salt : Nat) (db : DB) (uid : Nat) (cur new : String) (u : User),
      db.find? (fun v => v.id == uid) = some u →
      u.comparePassword cur = false →
      changePassword now salt db uid cur new =
        (Except.error ⟨401, "Current password is incorrect."⟩, db)) ∧
    (∀ (now salt : Nat) (db : DB) (uid : Nat) (cur new : String) (u : User),
      db.find? (fun v => v.id == uid) = some u →
      u.comparePassword cur = true →
      u.isActive = true →
      changePassword now salt db uid cur new =
        (Except.ok (), updateUser db u.id (fun v =>
          { setHashedPassword now salt new v with refreshTokens := [] })) ∧
      (∀ (cfg : Config) (now2 exp iat : Nat), now2 < exp →
        ∃ db3, refreshAccessToken cfg now2
            (updateUser db u.id (fun v =>
              { setHashedPassword now salt new v with refreshTokens := [] }))
            (some (Token.refreshJwt uid exp iat)) =
          (Except.error ⟨401, "Session invalid. Please log in again."⟩, db3))) := by
  refine ⟨?_, ?_, ?_⟩
  · intro now salt db uid cur new h
    unfold changePassword
    rw [h]
  · intro now salt db uid cur new u h hc
    unfold changePassword
    rw [h]
    simp [hc]
  · intro now salt db uid cur new u h hc ha
    have huid : u.id = uid := by simpa using List.find?_some h
    constructor
    · unfold changePassword
      rw [h]
      simp [hc]
    · intro cfg now2 exp iat hexp
      have hfind2 : (updateUser db u.id (fun v =>
          { setHashedPassword now salt new v with refreshTokens := [] })).find?
            (fun v => v.id == uid) = some ({ setHashedPassword now salt new u with
              refreshTokens := [] } : User) := by
        rw [huid]
        exact find?_id_updateUser db uid u _ h (fun v => rfl)
      refine ⟨_, refresh_reuse_eq cfg now2 _ uid exp iat _ hexp hfind2 ?_ ?_⟩
      · exact ha
      · intro e he
        cases he

def c5Config : Config := { bootstrapSecret := "S" }

def c5User : User :=
  { id := 1, firstName := "Ada", lastName := "L", email := "a@x.com",
    password := some (Digest.bcrypt 0 "Right1!"), hasSetPassword := true }

/-- C5 (code bug exhibited): the claim says the unknown-email failure and
the wrong-password failure are indistinguishable, and the source's own
comment asserts the same intent; but while both failures share status 401,
the wrong-password run appends a remaining-attempts suffix to its message,
so the two user-visible messages differ and reveal that the email exists. -/
theorem C5_login_messages_distinguish :
    (login c5Config 1000 [c5User] "b@x.com" "Wrong1!").1 =
      Except.error ⟨401, "Invalid email or password."⟩ ∧
    (login c5Config 1000 [c5User] "a@x.com" "Wrong1!").1 =
      Except.error ⟨401, "Invalid email or password. 4 attempt(s) remaining before account lock."⟩ ∧
    ("Invalid email or password." : String) ≠
      "Invalid email or password. 4 attempt(s) remaining before account lock." := by
  refine ⟨rfl, rfl, by decide⟩

/-- C8: for a user with a correctly set password, login with the correct
password succeeds, and the session entry it stores carries only the
SHA-256 hash of the returned raw refresh token — the stored `tokenHash`
is never equal to the raw token handed to the caller. -/
theorem C8_stored_hash_never_raw (cfg : Config) (now : Nat) (db : DB)
    (email pw : String) (u : User) (salt : Nat)
    (hids : uniqueIds db)
    (hfind : db.find? (fun v => v.email == email) = some u)
    (ha : u.isActive = true) (hs : u.hasSetPassword = true)
    (hl : u.isLocked now = false)
    (hpw : u.password = some (Digest.bcrypt salt pw)) :
    ∃ res db2 u2 entry,
      login cfg now db email pw = (Except.ok res, db2) ∧
      db2.find? (fun v => v.id == u.id) = some u2 ∧
      u2.refreshTokens.getLast? = some entry ∧
      entry.tokenHash = Token.sha256 res.refreshToken ∧
      entry.tokenHash ≠ res.refreshToken := by
  have hc : u.comparePassword pw = true := by
    simp [User.comparePassword, hpw]
  have hlogin := login_success_eq cfg now db email pw u hfind ha hs hl hc
  have hfid : db.find? (fun v => v.id == u.id) = some u :=
    find?_id_of_mem db u (List.mem_of_find?_eq_some hfind) hids
  have hfid2 := find?_id_updateUser db u.id u
    (fun v => { resetLoginAttempts now v with refreshTokens := newSessions cfg now u })
    hfid (fun v => rfl)
  refine ⟨_, _, _,
    ⟨Token.sha256 (signRefreshToken cfg now u.id), now, now + 7 * 24 * 60 * 60 * 1000⟩,
    hlogin, hfid2, ?_, rfl, sha256_ne _⟩
  show (newSessions cfg now u).getLast? = some _
  unfold newSessions
  rw [sliceLast_append_singleton 5 (by omega) _ _, List.getLast?_concat]

/-- C10 (implicit): both session writers stamp the stored `expiresAt` as
exactly `now` plus 7 days (604800000 ms), regardless of the configured
refresh-token expiry, while the signed refresh token's own expiry does
follow the configuration; so whenever the configured refresh expiry is
not 7 days, the stored session expiry and the token's expiry disagree. -/
theorem C10_session_expiry_fixed_seven_days :
    (∀ (cfg : Config) (now : Nat) (db : DB) (email pw : String) (u : User) (salt : Nat),
      uniqueIds db →
      db.find? (fun v => v.email == email) = some u →
      u.isActive = true → u.hasSetPassword = true →
      u.isLocked now = false →
      u.password = some (Digest.bcrypt salt pw) →
      ∃ res db2 u2 entry,
        login cfg now db email pw = (Except.ok res, db2) ∧
        db2.find? (fun v => v.id == u.id) = some u2 ∧
        u2.refreshTokens.getLast? = some entry ∧
        entry.expiresAt = now + 604800000 ∧
        res.refreshToken = Token.refreshJwt u.id (now + cfg.refreshExpiresMs) now ∧
        (cfg.refreshExpiresMs ≠ 604800000 →
          entry.expiresAt ≠ now + cfg.refreshExpiresMs)) ∧
    (∀ (cfg : Config) (now : Nat) (db : DB) (uid exp iat : Nat) (u : User)
        (zs : List SessionEntry) (e : SessionEntry),
      now < exp →
      db.find? (fun v => v.id == uid) = some u →
      u.isActive = true →
      u.refreshTokens = zs ++ [e] →
      (∀ z ∈ zs, z.tokenHash ≠ Token.sha256 (Token.refreshJwt uid exp iat)) →
      e.tokenHash = Token.sha256 (Token.refreshJwt uid exp iat) →
      now < e.expiresAt →
      ∃ r db2 u2 entry,
        refreshAccessToken cfg now db (some (Token.refreshJwt uid exp iat)) =
          (Except.ok r, db2) ∧
        db2.find? (fun v => v.id == uid) = some u2 ∧
        u2.refreshTokens.getLast? = some entry ∧
        entry.expiresAt = now + 604800000 ∧
        r.newRefreshToken = Token.refreshJwt u.id (now + cfg.refreshExpiresMs) now ∧
        (cfg.refreshExpiresMs ≠ 604800000 →
          entry.expiresAt ≠ now + cfg.refreshExpiresMs)) := by
  constructor
  · intro cfg now db email pw u salt hids hfind ha hs hl hpw
    have hc : u.comparePassword pw = true := by
      simp [User.comparePassword, hpw]
    have hlogin := login_success_eq cfg now db email pw u hfind ha hs hl hc
    have hfid : db.find? (fun v => v.id == u.id) = some u :=
      find?_id_of_mem db u (List.mem_of_find?_eq_some hfind) hids
    have hfid2 := find?_id_updateUser db u.id u
      (fun v => { resetLoginAttempts now v with refreshTokens := newSessions cfg now u })
      hfid (fun v => rfl)
    refine ⟨_, _, _,
      ⟨Token.sha256 (signRefreshToken cfg now u.id), now, now + 7 * 24 * 60 * 60 * 1000⟩,
      hlogin, hfid2, ?_, by norm_num, rfl, fun h => by
        show now + 7 * 24 * 60 * 60 * 1000 ≠ now + cfg.refreshExpiresMs
        omega⟩
    show (newSessions cfg now u).getLast? = some _
    unfold newSessions
    rw [sliceLast_append_singleton 5 (by omega) _ _, List.getLast?_concat]
  · intro cfg now db uid exp iat u zs e hexp hfind ha hsplit hzs he halive
    have huid : u.id = uid := by simpa using List.find?_some hfind
    subst huid
    have hrot := refresh_rotate_eq cfg now db u.id exp iat u zs e hexp hfind ha hsplit hzs he halive
    have hfid2 := find?_id_updateUser db u.id u
      (fun v => { v with refreshTokens := sliceLast 5 (pruneExpiredTokens now zs ++
        [⟨Token.sha256 (signRefreshToken cfg now u.id), now,
          now + 7 * 24 * 60 * 60 * 1000⟩]) })
      hfind (fun v => rfl)
    refine ⟨_, _, _,
      ⟨Token.sha256 (signRefreshToken cfg now u.id), now, now + 7 * 24 * 60 * 60 * 1000⟩,
      hrot, hfid2, ?_, by norm_num, rfl, fun h => by
        show now + 7 * 24 * 60 * 60 * 1000 ≠ now + cfg.refreshExpiresMs
        omega⟩
    show (sliceLast 5 (pruneExpiredTokens now zs ++
        [⟨Token.sha256 (signRefreshToken cfg now u.id), now,
          now + 7 * 24 * 60 * 60 * 1000⟩])).getLast? = some _
    rw [sliceLast_append_singleton 5 (by omega) _ _, List.getLast?_concat]

theorem login_fail_round (cfg : Config) (t : Nat) (db : DB) (email wrongpw : String)
    (u : User)
    (hfind : db.find? (fun v => v.email == email) = some u)
    (ha : u.isActive = true) (hs : u.hasSetPassword = true)
    (hlock : u.lockUntil = none)
    (hcw : u.comparePassword wrongpw = false)
    (hlt : u.loginAttempts + 1 < 5) :
    (login cfg t db email wrongpw).2.find? (fun v => v.email == email) =
      some { u with loginAttempts := u.loginAttempts + 1 } := by
  have hl : u.isLocked t = false := isLocked_of_none u t hlock
  obtain ⟨m, hm⟩ := login_wrongpw_eq cfg t db email wrongpw u hfind ha hs hl hcw
  rw [hm]
  have hpres : ∀ v, (incrementLoginAttempts t v).email = v.email :=
    fun v => (incrementLoginAttempts_preserves t v).1
  show (updateUser db u.id (incrementLoginAttempts t)).find?
    (fun v => v.email == email) = _
  rw [find?_email_updateUser db email u (incrementLoginAttempts t) hfind hpres,
      inc_unlocked_small t u hlock hlt]

theorem login_fail_round_fifth (cfg : Config) (t : Nat) (db : DB) (email wrongpw : String)
    (u : User)
    (hfind : db.find? (fun v => v.email == email) = some u)
    (ha : u.isActive = true) (hs : u.hasSetPassword = true)
    (hlock : u.lockUntil = none)
    (hcw : u.comparePassword wrongpw = false)
    (heq : u.loginAttempts + 1 = 5) :
    (login cfg t db email wrongpw).2.find? (fun v => v.email == email) =
      some { u with loginAttempts := u.loginAttempts + 1,
                    lockUntil := some (t + LOCK_DURATION_MS) } := by
  have hl : u.isLocked t = false := isLocked_of_none u t hlock
  obtain ⟨m, hm⟩ := login_wrongpw_eq cfg t db email wrongpw u hfind ha hs hl hcw
  rw [hm]
  have hpres : ∀ v, (incrementLoginAttempts t v).email = v.email :=
    fun v => (incrementLoginAttempts_preserves t v).1
  show (updateUser db u.id (incrementLoginAttempts t)).find?
    (fun v => v.email == email) = _
  rw [find?_email_updateUser db email u (incrementLoginAttempts t) hfind hpres,
      inc_unlocked_fifth t u hlock heq]

/-- C2: the failed-login accounting is exactly the state machine of
`incrementLoginAttempts`: a failed attempt on an expired lock resets the
counter to 1 and clears the lock (no new lock); otherwise the counter is
incremented, and when the incremented value reaches 5 on an unlocked
account, `lockUntil` is set to `now + 30min`.  Consequently, after exactly
5 consecutive failed logins the 6th attempt — even with the correct
password — is rejected with status 423 (`Locked`), and a failed attempt
during an active lock leaves the database, hence `loginAttempts`,
unchanged. -/
theorem C2_lockout_state_machine :
    (∀ (now : Nat) (u : User) (l : Nat),
      u.lockUntil = some l → l < now →
      incrementLoginAttempts now u = { u with loginAttempts := 1, lockUntil := none }) ∧
    (∀ (now : Nat) (u : User),
      lockExpired u now = false →
      (incrementLoginAttempts now u).loginAttempts = u.loginAttempts + 1) ∧
    (∀ (now : Nat) (u : User),
      lockExpired u now = false →
      u.loginAttempts + 1 = 5 →
      u.isLocked now = false →
      (incrementLoginAttempts now u).lockUntil = some (now + LOCK_DURATION_MS)) ∧
    (∀ (cfg : Config) (t1 t2 t3 t4 t5 t6 : Nat) (db : DB)
        (email wrongpw pw : String) (u : User),
      db.find? (fun v => v.email == email) = some u →
      u.isActive = true → u.hasSetPassword = true →
      u.loginAttempts = 0 → u.lockUntil = none →
      u.comparePassword wrongpw = false →
      u.comparePassword pw = true →
      t6 < t5 + LOCK_DURATION_MS →
      ∃ m,
        login cfg t6
          (login cfg t5 (login cfg t4 (login cfg t3 (login cfg t2 (login cfg t1 db
            email wrongpw).2 email wrongpw).2 email wrongpw).2 email wrongpw).2
            email wrongpw).2
          email pw =
        (Except.error ⟨423, m⟩,
         (login cfg t5 (login cfg t4 (login cfg t3 (login cfg t2 (login cfg t1 db
            email wrongpw).2 email wrongpw).2 email wrongpw).2 email wrongpw).2
            email wrongpw).2)) ∧
    (∀ (cfg : Config) (t : Nat) (db : DB) (email pw : String) (u : User),
      db.find? (fun v => v.email == email) = some u →
      u.isActive = true → u.hasSetPassword = true →
      u.isLocked t = true →
      login cfg t db email pw = (Except.error ⟨423, lockedLoginMessage u t⟩, db)) := by
  refine ⟨?_, ?_, ?_, ?_, ?_⟩
  · intro now u l hl hlt
    unfold incrementLoginAttempts lockExpired
    rw [hl]
    simp [hlt]
  · intro now u h
    unfold incrementLoginAttempts
    rw [h]
    simp only [Bool.false_eq_true, if_false]
    split <;> rfl
  · intro now u h heq hl
    unfold incrementLoginAttempts
    rw [h]
    simp only [Bool.false_eq_true, if_false]
    have h1 : decide (MAX_LOGIN_ATTEMPTS ≤ u.loginAttempts + 1) = true := by
      simp [MAX_LOGIN_ATTEMPTS]
      omega
    simp [h1, hl]
  · intro cfg t1 t2 t3 t4 t5 t6 db email wrongpw pw u hfind ha hs h0 hlock hcw hcp ht6
    have r1 := login_fail_round cfg t1 db email wrongpw u hfind ha hs hlock hcw
      (by omega)
    have r2 := login_fail_round cfg t2 _ email wrongpw _ r1 ha hs hlock hcw
      (by show u.loginAttempts + 1 + 1 < 5; omega)
    have r3 := login_fail_round cfg t3 _ email wrongpw _ r2 ha hs hlock hcw
      (by show u.loginAttempts + 1 + 1 + 1 < 5; omega)
    have r4 := login_fail_round cfg t4 _ email wrongpw _ r3 ha hs hlock hcw
      (by show u.loginAttempts + 1 + 1 + 1 + 1 < 5; omega)
    have r5 := login_fail_round_fifth cfg t5 _ email wrongpw _ r4 ha hs hlock hcw
      (by show u.loginAttempts + 1 + 1 + 1 + 1 + 1 = 5; omega)
    have hl6 : ({ { { { { u with loginAttempts := u.loginAttempts + 1 } with
        loginAttempts := u.loginAttempts + 1 + 1 } with
        loginAttempts := u.loginAttempts + 1 + 1 + 1 } with
        loginAttempts := u.loginAttempts + 1 + 1 + 1 + 1 } with
        loginAttempts := u.loginAttempts + 1 + 1 + 1 + 1 + 1,
        lockUntil := some (t5 + LOCK_DURATION_MS) } : User).isLocked t6 = true := by
      show decide (t6 < t5 + LOCK_DURATION_MS) = true
      exact decide_eq_true ht6
    exact ⟨_, login_locked_eq cfg t6 _ email pw _ r5 ha hs hl6⟩
  · intro cfg t db email pw u hfind ha hs hl
    exact login_locked_eq cfg t db email pw u hfind ha hs hl

/-- The per-user bound the session registry maintains. -/
def sessionsBounded (db : DB) : Prop :=
  ∀ v ∈ db, v.refreshTokens.length ≤ 5

theorem sessionsBounded_updateUser (db : DB) (i : Nat) (f : User → User)
    (hinv : sessionsBounded db)
    (hf : ∀ v ∈ db, (f v).refreshTokens.length ≤ 5) :
    sessionsBounded (updateUser db i f) := by
  intro w hw
  rcases List.mem_map.mp hw with ⟨v, hv, hmap⟩
  by_cases h : (v.id == i) = true
  · rw [← hmap, if_pos h]
    exact hf v hv
  · rw [← hmap, if_neg h]
    exact hinv v hv

def c3Config : Config := { bootstrapSecret := "S" }

def c3User : User :=
  { id := 1, firstName := "Ada", lastName := "L", email := "a@x.com",
    password := some (Digest.bcrypt 0 "Pw1!"), hasSetPassword := true }

/-- The database after `k` sequential successful logins of `c3User`, one
per millisecond tick. -/
def c3Db : Nat → DB
  | 0 => [c3User]
  | n + 1 => (login c3Config (n + 1) (c3Db n) "a@x.com" "Pw1!").2

/-- C3: every session-list writer keeps `sessions.length ≤ 5`
(login's register, refresh's rotate, logout's revokeOne, changePassword's
revokeAll); on login the kept entries are a suffix of the pruned old list
plus the fresh entry (oldest-first eviction, FIFO by insertion); and
concretely 6 sequential successful logins leave exactly the 5 entries of
logins 2–6 — the first login's entry is evicted. -/
theorem C3_session_cap :
    (∀ (cfg : Config) (now : Nat) (db : DB) (email pw : String),
      sessionsBounded db → sessionsBounded (login cfg now db email pw).2) ∧
    (∀ (cfg : Config) (now : Nat) (db : DB) (tok : Option Token),
      sessionsBounded db → sessionsBounded (refreshAccessToken cfg now db tok).2) ∧
    (∀ (db : DB) (uid : Nat) (tok : Option Token),
      sessionsBounded db → sessionsBounded (logout db uid tok).2) ∧
    (∀ (now salt : Nat) (db : DB) (uid : Nat) (cur new : String),
      sessionsBounded db → sessionsBounded (changePassword now salt db uid cur new).2) ∧
    (∀ (cfg : Config) (now : Nat) (db : DB) (email pw : String) (u : User),
      uniqueIds db →
      db.find? (fun v => v.email == email) = some u →
      u.isActive = true → u.hasSetPassword = true →
      u.isLocked now = false → u.comparePassword pw = true →
      ∃ res db2 u2 dropped,
        login cfg now db email pw = (Except.ok res, db2) ∧
        db2.find? (fun v => v.id == u.id) = some u2 ∧
        dropped ++ u2.refreshTokens =
          pruneExpiredTokens now u.refreshTokens ++
            [⟨Token.sha256 res.refreshToken, now, now + 7 * 24 * 60 * 60 * 1000⟩]) ∧
    (((c3Db 6).find? (fun v => v.id == 1)).map
        (fun u => u.refreshTokens.map (fun e => e.createdAt)) = some [2, 3, 4, 5, 6]) := by
  refine ⟨?_, ?_, ?_, ?_, ?_, by decide⟩
  · intro cfg now db email pw hinv
    unfold login
    split
    · exact hinv
    · split
      · exact hinv
      · split
        · exact hinv
        · split
          · exact hinv
          · split
            · apply sessionsBounded_updateUser _ _ _ hinv
              intro v hv
              have hp := (incrementLoginAttempts_preserves now v).2.2.2.2.2
              rw [hp]
              exact hinv v hv
            · apply sessionsBounded_updateUser
              · apply sessionsBounded_updateUser _ _ _ hinv
                intro v hv
                exact hinv v hv
              · intro v hv
                exact length_sliceLast_le 5 _
  · intro cfg now db tok hinv
    unfold refreshAccessToken
    split
    · exact hinv
    · split
      · exact hinv
      · split
        · exact hinv
        · split
          · exact hinv
          · dsimp only
            split
            · apply sessionsBounded_updateUser _ _ _ hinv
              intro v hv
              simp
            · apply sessionsBounded_updateUser _ _ _ hinv
              intro v hv
              exact length_sliceLast_le 5 _
  · intro db uid tok hinv
    unfold logout
    split
    · exact hinv
    · apply sessionsBounded_updateUser _ _ _ hinv
      intro v hv
      calc (v.refreshTokens.filter _).length ≤ v.refreshTokens.length :=
            List.length_filter_le _ _
        _ ≤ 5 := hinv v hv
  · intro now salt db uid cur new hinv
    unfold changePassword
    split
    · exact hinv
    · split
      · exact hinv
      · apply sessionsBounded_updateUser _ _ _ hinv
        intro v hv
        simp
  · intro cfg now db email pw u hids hfind ha hs hl hc
    have hlogin := login_success_eq cfg now db email pw u hfind ha hs hl hc
    have hfid : db.find? (fun v => v.id == u.id) = some u :=
      find?_id_of_mem db u (List.mem_of_find?_eq_some hfind) hids
    have hfid2 := find?_id_updateUser db u.id u
      (fun v => { resetLoginAttempts now v with refreshTokens := newSessions cfg now u })
      hfid (fun v => rfl)
    obtain ⟨dropped, hdrop⟩ := sliceLast_suffix 5
      (pruneExpiredTokens now u.refreshTokens ++
        [⟨Token.sha256 (signRefreshToken cfg now u.id), now, now + 7 * 24 * 60 * 60 * 1000⟩])
    exact ⟨_, _, _, dropped, hlogin, hfid2, hdrop⟩

/-- The pending user document `createUser` creates. -/
def mkInvited (cfg : Config) (t0 nonce newId adminId : Nat)
    (fn ln email role : String) : User :=
  { id := newId, firstName := fn, lastName := ln, email := email, role := role,
    inviteToken := some (Token.sha256 (Token.rand nonce)),
    inviteTokenExpires := some (t0 + cfg.inviteTokenExpiresHours * 60 * 60 * 1000),
    hasSetPassword := false,
    createdBy := some adminId }

/-- C4: `createUser` returns a raw invite token whose redemption through
`setPassword` before expiry succeeds exactly once — it stores the bcrypt
hash of the chosen password, sets `hasSetPassword = true`, and clears
both invite fields — and a second redemption of the same raw token fails
with the `InviteInvalidOrExpired` failure (400). -/
theorem C4_invite_round_trip (cfg : Config)
    (t0 t1 t2 salt salt2 nonce newId adminId : Nat) (db : DB)
    (fn ln email role pwd pwd2 : String)
    (hemail : db.find? (fun v => v.email == email) = none)
    (hfresh : ∀ v ∈ db, v.inviteToken ≠ some (Token.sha256 (Token.rand nonce)))
    (hid : ∀ v ∈ db, v.id ≠ newId)
    (hexp : t1 < t0 + cfg.inviteTokenExpiresHours * 60 * 60 * 1000) :
    ∃ res db2 u2,
      createUser cfg t0 nonce newId adminId db fn ln email role =
        (Except.ok res, db ++ [mkInvited cfg t0 nonce newId adminId fn ln email role]) ∧
      res.inviteToken = Token.rand nonce ∧
      setPassword t1 salt (db ++ [mkInvited cfg t0 nonce newId adminId fn ln email role])
          (Token.rand nonce) pwd =
        (Except.ok (userView (mkInvited cfg t0 nonce newId adminId fn ln email role)),
         db2) ∧
      db2.find? (fun v => v.id == newId) = some u2 ∧
      u2.password = some (Digest.bcrypt salt pwd) ∧
      u2.hasSetPassword = true ∧
      u2.inviteToken = none ∧
      u2.inviteTokenExpires = none ∧
      setPassword t2 salt2 db2 (Token.rand nonce) pwd2 =
        (Except.error ⟨400, "Invalid or expired invite token. Please request a new invite from your administrator."⟩, db2) := by
  set nu : User := mkInvited cfg t0 nonce newId adminId fn ln email role with hnu
  set g : User → User := fun v =>
    { setHashedPassword t1 salt pwd v with
      hasSetPassword := true,
      inviteToken := none,
      inviteTokenExpires := none } with hg
  have hq1 : ∀ v ∈ db, (fun u : User =>
      u.inviteToken == some (Token.sha256 (Token.rand nonce)) &&
      (match u.inviteTokenExpires with
       | some e => decide (t1 < e)
       | none => false)) v = false := by
    intro v hv
    have hb : (v.inviteToken == some (Token.sha256 (Token.rand nonce))) = false := by
      rw [beq_eq_false_iff_ne]
      exact hfresh v hv
    simp [hb]
  have hcreate : createUser cfg t0 nonce newId adminId db fn ln email role =
      (Except.ok ⟨userView nu, Token.rand nonce,
        t0 + cfg.inviteTokenExpiresHours * 60 * 60 * 1000⟩, db ++ [nu]) := by
    unfold createUser
    rw [if_neg (by simp [hemail])]
    rfl
  have hsp1 : setPassword t1 salt (db ++ [nu]) (Token.rand nonce) pwd =
      (Except.ok (userView nu), updateUser (db ++ [nu]) newId g) := by
    unfold setPassword
    dsimp only
    rw [find?_append_of_none _ _ _ hq1,
        List.find?_cons_of_pos _ (by simp [hnu, mkInvited, hexp])]
    rfl
  have hfid : (db ++ [nu]).find? (fun v => v.id == newId) = some nu := by
    rw [find?_append_of_none _ _ _ (fun v hv => by simp [hid v hv]),
        List.find?_cons_of_pos _ (by simp [hnu, mkInvited])]
  have hfid2 : (updateUser (db ++ [nu]) newId g).find? (fun v => v.id == newId) =
      some (g nu) :=
    find?_id_updateUser (db ++ [nu]) newId nu g hfid (fun v => rfl)
  have hq2 : ∀ v ∈ updateUser (db ++ [nu]) newId g, ¬ ((fun u : User =>
      u.inviteToken == some (Token.sha256 (Token.rand nonce)) &&
      (match u.inviteTokenExpires with
       | some e => decide (t2 < e)
       | none => false)) v = true) := by
    intro v hv
    rcases List.mem_map.mp hv with ⟨w, hw, hmap⟩
    rcases List.mem_append.mp hw with hw2 | hw2
    · rw [if_neg (by simp [hid w hw2])] at hmap
      rw [← hmap]
      have hb : (w.inviteToken == some (Token.sha256 (Token.rand nonce))) = false := by
        rw [beq_eq_false_iff_ne]
        exact hfresh w hw2
      simp [hb]
    · have hwu : w = nu := by simpa using hw2
      subst hwu
      rw [if_pos (by simp [hnu, mkInvited])] at hmap
      rw [← hmap]
      simp [hg]
  have hsp2 : setPassword t2 salt2 (updateUser (db ++ [nu]) newId g)
      (Token.rand nonce) pwd2 =
      (Except.error ⟨400, "Invalid or expired invite token. Please request a new invite from your administrator."⟩,
       updateUser (db ++ [nu]) newId g) := by
    unfold setPassword
    dsimp only
    rw [List.find?_eq_none.mpr hq2]
  exact ⟨_, _, g nu, hcreate, rfl, hsp1, hfid2, rfl, rfl, rfl, rfl, hsp2⟩

/-- The user document right after a successful login at `t0`. -/
def afterLogin (cfg : Config) (t0 : Nat) (u : User) : User :=
  { resetLoginAttempts t0 u with refreshTokens := newSessions cfg t0 u }

/-- The part of the pruned old session list that the login write keeps in
front of the fresh entry. -/
def keptOld (t0 : Nat) (u : User) : List SessionEntry :=
  (pruneExpiredTokens t0 u.refreshTokens).drop
    ((pruneExpiredTokens t0 u.refreshTokens).length + 1 - 5)

/-- The session list after the first rotation at `t1` of the token issued
by a login at `t0`. -/
def rotSessions (cfg : Config) (t0 t1 : Nat) (u : User) : List SessionEntry :=
  sliceLast 5 (pruneExpiredTokens t1 (keptOld t0 u) ++
    [⟨Token.sha256 (signRefreshToken cfg t1 u.id), t1, t1 + 7 * 24 * 60 * 60 * 1000⟩])

/-- C1: for every user and refresh token R1 issued to that user at login,
the first `refreshAccessToken(R1)` succeeds and returns a new access token
and a new refresh token R2; a second call with R1 fails with the
`SessionInvalid` failure (401, "Session invalid. Please log in again."),
the user's entire session list having been cleared before that failure is
returned; hence a subsequent call with R2 also fails with `SessionInvalid`. -/
theorem C1_rotation_and_reuse_detection (cfg : Config) (t0 t1 t2 t3 : Nat)
    (db : DB) (email pw : String) (u : User)
    (hids : uniqueIds db)
    (hfind : db.find? (fun v => v.email == email) = some u)
    (ha : u.isActive = true) (hs : u.hasSetPassword = true)
    (hl : u.isLocked t0 = false) (hc : u.comparePassword pw = true)
    (hfresh : ∀ e ∈ u.refreshTokens,
      e.tokenHash ≠ Token.sha256 (Token.refreshJwt u.id (t0 + cfg.refreshExpiresMs) t0))
    (ht01 : t0 ≠ t1)
    (hv1 : t1 < t0 + cfg.refreshExpiresMs)
    (hs1 : t1 < t0 + 7 * 24 * 60 * 60 * 1000)
    (hv2 : t2 < t0 + cfg.refreshExpiresMs)
    (hv3 : t3 < t1 + cfg.refreshExpiresMs) :
    ∃ res db1 acc2 db2 db3 u3 db4,
      login cfg t0 db email pw = (Except.ok res, db1) ∧
      res.refreshToken = Token.refreshJwt u.id (t0 + cfg.refreshExpiresMs) t0 ∧
      refreshAccessToken cfg t1 db1 (some res.refreshToken) =
        (Except.ok ⟨acc2, Token.refreshJwt u.id (t1 + cfg.refreshExpiresMs) t1⟩, db2) ∧
      refreshAccessToken cfg t2 db2 (some res.refreshToken) =
        (Except.error ⟨401, "Session invalid. Please log in again."⟩, db3) ∧
      db3.find? (fun v => v.id == u.id) = some u3 ∧
      u3.refreshTokens = [] ∧
      refreshAccessToken cfg t3 db3
          (some (Token.refreshJwt u.id (t1 + cfg.refreshExpiresMs) t1)) =
        (Except.error ⟨401, "Session invalid. Please log in again."⟩, db4) := by
  have hlogin := login_success_eq cfg t0 db email pw u hfind ha hs hl hc
  have hfid : db.find? (fun v => v.id == u.id) = some u :=
    find?_id_of_mem db u (List.mem_of_find?_eq_some hfind) hids
  have hfid1 : (updateUser db u.id
      (fun v => { resetLoginAttempts t0 v with refreshTokens := newSessions cfg t0 u })).find?
      (fun v => v.id == u.id) = some (afterLogin cfg t0 u) :=
    find?_id_updateUser db u.id u _ hfid (fun v => rfl)
  have hsplit1 : (afterLogin cfg t0 u).refreshTokens =
      keptOld t0 u ++ [⟨Token.sha256 (signRefreshToken cfg t0 u.id), t0,
        t0 + 7 * 24 * 60 * 60 * 1000⟩] := by
    show newSessions cfg t0 u = _
    unfold newSessions keptOld
    exact sliceLast_append_singleton 5 (by omega) _ _
  have hzs1 : ∀ z ∈ keptOld t0 u,
      z.tokenHash ≠ Token.sha256 (Token.refreshJwt u.id (t0 + cfg.refreshExpiresMs) t0) := by
    intro z hz
    have hz2 : z ∈ pruneExpiredTokens t0 u.refreshTokens := List.mem_of_mem_drop hz
    have hz3 : z ∈ u.refreshTokens := (List.mem_filter.mp hz2).1
    exact hfresh z hz3
  have hrot := refresh_rotate_eq cfg t1
    (updateUser db u.id
      (fun v => { resetLoginAttempts t0 v with refreshTokens := newSessions cfg t0 u }))
    u.id (t0 + cfg.refreshExpiresMs) t0
    (afterLogin cfg t0 u) (keptOld t0 u)
    ⟨Token.sha256 (signRefreshToken cfg t0 u.id), t0, t0 + 7 * 24 * 60 * 60 * 1000⟩
    hv1 hfid1 ha hsplit1 hzs1 rfl hs1
  have hfid2 : (updateUser
      (updateUser db u.id
        (fun v => { resetLoginAttempts t0 v with refreshTokens := newSessions cfg t0 u }))
      u.id
      (fun v => { v with refreshTokens := rotSessions cfg t0 t1 u })).find?
      (fun v => v.id == u.id) =
      some { afterLogin cfg t0 u with refreshTokens := rotSessions cfg t0 t1 u } :=
    find?_id_updateUser _ u.id (afterLogin cfg t0 u) _ hfid1 (fun v => rfl)
  have hmiss2 : ∀ e2 ∈ rotSessions cfg t0 t1 u,
      e2.tokenHash ≠ Token.sha256 (Token.refreshJwt u.id (t0 + cfg.refreshExpiresMs) t0) := by
    intro e2 he2
    have h1 : e2 ∈ pruneExpiredTokens t1 (keptOld t0 u) ++
        [⟨Token.sha256 (signRefreshToken cfg t1 u.id), t1,
          t1 + 7 * 24 * 60 * 60 * 1000⟩] := List.mem_of_mem_drop he2
    rcases List.mem_append.mp h1 with h2 | h2
    · exact hzs1 e2 (List.mem_filter.mp h2).1
    · have h3 : e2 = ⟨Token.sha256 (signRefreshToken cfg t1 u.id), t1,
          t1 + 7 * 24 * 60 * 60 * 1000⟩ := by simpa using h2
      rw [h3]
      show Token.sha256 (signRefreshToken cfg t1 u.id) ≠
        Token.sha256 (Token.refreshJwt u.id (t0 + cfg.refreshExpiresMs) t0)
      intro habs
      injection habs with h4
      injection h4 with h5 h6 h7
      exact ht01 h7.symm
  have hreuse2 := refresh_reuse_eq cfg t2
    (updateUser
      (updateUser db u.id
        (fun v => { resetLoginAttempts t0 v with refreshTokens := newSessions cfg t0 u }))
      u.id
      (fun v => { v with refreshTokens := rotSessions cfg t0 t1 u }))
    u.id (t0 + cfg.refreshExpiresMs) t0
    { afterLogin cfg t0 u with refreshTokens := rotSessions cfg t0 t1 u }
    hv2 hfid2 ha hmiss2
  have hfid3 := find?_id_updateUser _ u.id
    ({ afterLogin cfg t0 u with refreshTokens := rotSessions cfg t0 t1 u })
    (fun v => { v with refreshTokens := ([] : List SessionEntry) })
    hfid2 (fun v => rfl)
  have hreuse3 := refresh_reuse_eq cfg t3 _ u.id (t1 + cfg.refreshExpiresMs) t1 _
    hv3 hfid3 ha (fun e2 he2 => absurd he2 (List.not_mem_nil e2))
  exact ⟨_, _, _, _, _, _, _, hlogin, rfl, hrot, hreuse2, hfid3, rfl, hreuse3⟩

-- ─── concrete data for the witnesses ───

def wCfg : Config := { bootstrapSecret := "S" }

def wCfgShort : Config := { bootstrapSecret := "S", refreshExpiresMs := 1000 }

def wUser : User :=
  { id := 1, firstName := "Ada", lastName := "L", email := "a@x.com",
    password := some (Digest.bcrypt 0 "Right1!"), hasSetPassword := true }

def wDb : DB := [wUser]

/-- A user holding one live session entry for the token
`refreshJwt 1 100 0`, used to exercise the rotation path concretely. -/
def wRotUser : User :=
  { wUser with refreshTokens :=
      [⟨Token.sha256 (Token.refreshJwt 1 100 0), 0, 50⟩] }

theorem C1_witness :
    ∃ res db1 acc2 db2 db3 u3 db4,
      login wCfg 1000 wDb "a@x.com" "Right1!" = (Except.ok res, db1) ∧
      res.refreshToken = Token.refreshJwt wUser.id (1000 + wCfg.refreshExpiresMs) 1000 ∧
      refreshAccessToken wCfg 2000 db1 (some res.refreshToken) =
        (Except.ok ⟨acc2, Token.refreshJwt wUser.id (2000 + wCfg.refreshExpiresMs) 2000⟩, db2) ∧
      refreshAccessToken wCfg 3000 db2 (some res.refreshToken) =
        (Except.error ⟨401, "Session invalid. Please log in again."⟩, db3) ∧
      db3.find? (fun v => v.id == wUser.id) = some u3 ∧
      u3.refreshTokens = [] ∧
      refreshAccessToken wCfg 4000 db3
          (some (Token.refreshJwt wUser.id (2000 + wCfg.refreshExpiresMs) 2000)) =
        (Except.error ⟨401, "Session invalid. Please log in again."⟩, db4) :=
  C1_rotation_and_reuse_detection wCfg 1000 2000 3000 4000 wDb "a@x.com" "Right1!" wUser
    (List.pairwise_singleton _ _) rfl rfl rfl rfl (by decide)
    (fun e he => absurd he (List.not_mem_nil e))
    (by decide) (by decide) (by decide) (by decide) (by decide)

theorem C2_witness :
    (incrementLoginAttempts 100 { wUser with loginAttempts := 3, lockUntil := some 50 } =
      { { wUser with loginAttempts := 3, lockUntil := some 50 } with
        loginAttempts := 1, lockUntil := none }) ∧
    ((incrementLoginAttempts 5 wUser).loginAttempts = wUser.loginAttempts + 1) ∧
    ((incrementLoginAttempts 7 { wUser with loginAttempts := 4 }).lockUntil =
      some (7 + LOCK_DURATION_MS)) ∧
    (∃ m,
      login wCfg 6
        (login wCfg 5 (login wCfg 4 (login wCfg 3 (login wCfg 2 (login wCfg 1 wDb
          "a@x.com" "Wrong1!").2 "a@x.com" "Wrong1!").2 "a@x.com" "Wrong1!").2
          "a@x.com" "Wrong1!").2 "a@x.com" "Wrong1!").2
        "a@x.com" "Right1!" =
      (Except.error ⟨423, m⟩,
       (login wCfg 5 (login wCfg 4 (login wCfg 3 (login wCfg 2 (login wCfg 1 wDb
          "a@x.com" "Wrong1!").2 "a@x.com" "Wrong1!").2 "a@x.com" "Wrong1!").2
          "a@x.com" "Wrong1!").2 "a@x.com" "Wrong1!").2)) ∧
    (login wCfg 10 [{ wUser with lockUntil := some 99999 }] "a@x.com" "Right1!" =
      (Except.error ⟨423, lockedLoginMessage { wUser with lockUntil := some 99999 } 10⟩,
       [{ wUser with lockUntil := some 99999 }])) :=
  ⟨C2_lockout_state_machine.1 100 _ 50 rfl (by decide),
   C2_lockout_state_machine.2.1 5 wUser rfl,
   C2_lockout_state_machine.2.2.1 7 _ rfl rfl rfl,
   C2_lockout_state_machine.2.2.2.1 wCfg 1 2 3 4 5 6 wDb "a@x.com" "Wrong1!" "Right1!"
     wUser rfl rfl rfl rfl rfl (by decide) (by decide) (by decide),
   C2_lockout_state_machine.2.2.2.2 wCfg 10 _ "a@x.com" "Right1!" _ rfl rfl rfl
     (by decide)⟩

theorem C3_witness :
    sessionsBounded (login wCfg 1 wDb "a@x.com" "Right1!").2 ∧
    sessionsBounded (refreshAccessToken wCfg 1 wDb none).2 ∧
    sessionsBounded (logout wDb 1 none).2 ∧
    sessionsBounded (changePassword 1 0 wDb 1 "Right1!" "Next1!").2 ∧
    (∃ res db2 u2 dropped,
      login wCfg 1 wDb "a@x.com" "Right1!" = (Except.ok res, db2) ∧
      db2.find? (fun v => v.id == wUser.id) = some u2 ∧
      dropped ++ u2.refreshTokens =
        pruneExpiredTokens 1 wUser.refreshTokens ++
          [⟨Token.sha256 res.refreshToken, 1, 1 + 7 * 24 * 60 * 60 * 1000⟩]) := by
  have hB : sessionsBounded wDb := by
    intro v hv
    have hv2 : v = wUser := by simpa [wDb] using hv
    rw [hv2]
    decide
  exact ⟨C3_session_cap.1 wCfg 1 wDb "a@x.com" "Right1!" hB,
    C3_session_cap.2.1 wCfg 1 wDb none hB,
    C3_session_cap.2.2.1 wDb 1 none hB,
    C3_session_cap.2.2.2.1 1 0 wDb 1 "Right1!" "Next1!" hB,
    C3_session_cap.2.2.2.2.1 wCfg 1 wDb "a@x.com" "Right1!" wUser
      (List.pairwise_singleton _ _) rfl rfl rfl rfl (by decide)⟩

theorem C4_witness :
    ∃ res db2 u2,
      createUser wCfg 0 7 2 1 [] "Cam" "D" "c@x.com" "employee" =
        (Except.ok res, [] ++ [mkInvited wCfg 0 7 2 1 "Cam" "D" "c@x.com" "employee"]) ∧
      res.inviteToken = Token.rand 7 ∧
      setPassword 1 3 ([] ++ [mkInvited wCfg 0 7 2 1 "Cam" "D" "c@x.com" "employee"])
          (Token.rand 7) "NewPass1!" =
        (Except.ok (userView (mkInvited wCfg 0 7 2 1 "Cam" "D" "c@x.com" "employee")),
         db2) ∧
      db2.find? (fun v => v.id == 2) = some u2 ∧
      u2.password = some (Digest.bcrypt 3 "NewPass1!") ∧
      u2.hasSetPassword = true ∧
      u2.inviteToken = none ∧
      u2.inviteTokenExpires = none ∧
      setPassword 2 4 db2 (Token.rand 7) "Other1!" =
        (Except.error ⟨400, "Invalid or expired invite token. Please request a new invite from your administrator."⟩, db2) :=
  C4_invite_round_trip wCfg 0 1 2 3 4 7 2 1 [] "Cam" "D" "c@x.com" "employee"
    "NewPass1!" "Other1!" rfl
    (fun v hv => absurd hv (List.not_mem_nil v))
    (fun v hv => absurd hv (List.not_mem_nil v))
    (by decide)

theorem C6_witness :
    (changePassword 1 0 wDb 99 "x" "y" = (Except.error ⟨404, "User not found."⟩, wDb)) ∧
    (changePassword 1 0 wDb 1 "Wrong1!" "y" =
      (Except.error ⟨401, "Current password is incorrect."⟩, wDb)) ∧
    (changePassword 1 5 wDb 1 "Right1!" "Next1!" =
      (Except.ok (), updateUser wDb wUser.id (fun v =>
        { setHashedPassword 1 5 "Next1!" v with refreshTokens := [] }))) ∧
    (∃ db3, refreshAccessToken wCfg 10
        (updateUser wDb wUser.id (fun v =>
          { setHashedPassword 1 5 "Next1!" v with refreshTokens := [] }))
        (some (Token.refreshJwt 1 100 0)) =
      (Except.error ⟨401, "Session invalid. Please log in again."⟩, db3)) :=
  ⟨C6_changePassword_behavior.1 1 0 wDb 99 "x" "y" rfl,
   C6_changePassword_behavior.2.1 1 0 wDb 1 "Wrong1!" "y" wUser rfl (by decide),
   (C6_changePassword_behavior.2.2 1 5 wDb 1 "Right1!" "Next1!" wUser rfl (by decide) rfl).1,
   (C6_changePassword_behavior.2.2 1 5 wDb 1 "Right1!" "Next1!" wUser rfl (by decide) rfl).2
     wCfg 10 100 0 (by decide)⟩

theorem C7_witness :
    (registerAdmin wCfg 0 1 [] "A" "B" "a@x.com" "Pw1!" "WRONG" =
      (Except.error ⟨403, "Invalid admin bootstrap secret."⟩, [])) ∧
    (registerAdmin wCfg 0 2 [mkAdmin 0 1 "A" "B" "a@x.com" "Pw1!"] "C" "D" "c@x.com"
        "Pw1!" wCfg.bootstrapSecret =
      (Except.error ⟨409, "An admin account already exists. Use the standard user management flow to add more admins."⟩,
       [mkAdmin 0 1 "A" "B" "a@x.com" "Pw1!"])) ∧
    (registerAdmin wCfg 0 2 wDb "C" "D" "a@x.com" "Pw1!" wCfg.bootstrapSecret =
      (Except.error ⟨409, "An account with this email already exists."⟩, wDb)) ∧
    (∃ admin : User,
      registerAdmin wCfg 0 1 [] "A" "B" "a@x.com" "Pw1!" wCfg.bootstrapSecret =
        (Except.ok (userView admin), [] ++ [admin]) ∧
      admin.role = "admin" ∧
      admin.hasSetPassword = true ∧
      (∀ (salt2 newId2 : Nat) (fn2 ln2 em2 pw2 : String),
        registerAdmin wCfg salt2 newId2 ([] ++ [admin]) fn2 ln2 em2 pw2
            wCfg.bootstrapSecret =
          (Except.error ⟨409, "An admin account already exists. Use the standard user management flow to add more admins."⟩, [] ++ [admin])) ∧
      (∀ (salt2 newId2 : Nat) (fn2 ln2 em2 pw2 sec2 : String),
        sec2 ≠ wCfg.bootstrapSecret →
        registerAdmin wCfg salt2 newId2 ([] ++ [admin]) fn2 ln2 em2 pw2 sec2 =
          (Except.error ⟨403, "Invalid admin bootstrap secret."⟩, [] ++ [admin]))) :=
  ⟨C7_registerAdmin_bootstrap.1 wCfg 0 1 [] "A" "B" "a@x.com" "Pw1!" "WRONG" (by decide),
   C7_registerAdmin_bootstrap.2.1 wCfg 0 2 _ "C" "D" "c@x.com" "Pw1!" rfl,
   C7_registerAdmin_bootstrap.2.2.1 wCfg 0 2 wDb "C" "D" "a@x.com" "Pw1!" rfl rfl,
   C7_registerAdmin_bootstrap.2.2.2 wCfg 0 1 [] "A" "B" "a@x.com" "Pw1!" rfl rfl⟩

theorem C8_witness :
    ∃ res db2 u2 entry,
      login wCfg 1000 wDb "a@x.com" "Right1!" = (Except.ok res, db2) ∧
      db2.find? (fun v => v.id == wUser.id) = some u2 ∧
      u2.refreshTokens.getLast? = some entry ∧
      entry.tokenHash = Token.sha256 res.refreshToken ∧
      entry.tokenHash ≠ res.refreshToken :=
  C8_stored_hash_never_raw wCfg 1000 wDb "a@x.com" "Right1!" wUser 0
    (List.pairwise_singleton _ _) rfl rfl rfl rfl rfl

theorem C10_witness :
    (∃ res db2 u2 entry,
      login wCfgShort 1000 wDb "a@x.com" "Right1!" = (Except.ok res, db2) ∧
      db2.find? (fun v => v.id == wUser.id) = some u2 ∧
      u2.refreshTokens.getLast? = some entry ∧
      entry.expiresAt = 1000 + 604800000 ∧
      res.refreshToken = Token.refreshJwt wUser.id (1000 + wCfgShort.refreshExpiresMs) 1000 ∧
      (wCfgShort.refreshExpiresMs ≠ 604800000 →
        entry.expiresAt ≠ 1000 + wCfgShort.refreshExpiresMs)) ∧
    (∃ r db2 u2 entry,
      refreshAccessToken wCfgShort 10 [wRotUser] (some (Token.refreshJwt 1 100 0)) =
        (Except.ok r, db2) ∧
      db2.find? (fun v => v.id == 1) = some u2 ∧
      u2.refreshTokens.getLast? = some entry ∧
      entry.expiresAt = 10 + 604800000 ∧
      r.newRefreshToken = Token.refreshJwt wRotUser.id (10 + wCfgShort.refreshExpiresMs) 10 ∧
      (wCfgShort.refreshExpiresMs ≠ 604800000 →
        entry.expiresAt ≠ 10 + wCfgShort.refreshExpiresMs)) :=
  ⟨C10_session_expiry_fixed_seven_days.1 wCfgShort 1000 wDb "a@x.com" "Right1!" wUser 0
     (List.pairwise_singleton _ _) rfl rfl rfl rfl rfl,
   C10_session_expiry_fixed_seven_days.2 wCfgShort 10 [wRotUser] 1 100 0 wRotUser
     [] ⟨Token.sha256 (Token.refreshJwt 1 100 0), 0, 50⟩
     (by decide) rfl rfl rfl
     (fun z hz => absurd hz (List.not_mem_nil z)) rfl (by decide)⟩

end HRAuth
